import Mathlib

/-!
Shallow embedding of the loop-vectorization RL environment of
src/rl_env.py (class LoopVectorizeEnv) together with proofs of the
specification claims about it.

Modelling conventions:
- Python floats (wall-clock times, observation entries) are modelled by
  the rationals, which keeps every operation and comparison exact and
  executable.
- JSON feature records are Python dicts accessed through dict.get with a
  default, so every counted field is an optional integer; loop.get with
  default 0 becomes Option.getD 0.
- The filesystem side effects that matter to the claims (the directive
  file loop_actions.json and the sequence of external subprocess
  invocations) are threaded through a World state.  Every subprocess
  invocation appends its command line to World.calls; writing the
  directive file replaces World.loop_actions wholesale, exactly as
  json.dump of a freshly built dict does.
- The outcome of the external toolchain (exit statuses of the three opt /
  clang stages, the exit status and wall-clock time of the measured
  binary) is an oracle value ToolchainOutcome supplied to each run, since
  the external processes are outside the program.
- Python exceptions become an error inductive PyError; a raising method
  returns Except PyError together with the updated state.
-/

deriving instance DecidableEq for Except

/-- One loop feature record of loop_features.json.  Every counted field is
read in rl_env.py via loop.get with a default, so each is optional here;
loop_id is read with mandatory key access at step time. -/
structure LoopFeature where
  loop_id : String
  num_blocks : Option Int := none
  num_loads : Option Int := none
  num_stores : Option Int := none
  num_arith : Option Int := none
  num_calls : Option Int := none
  trip_count_est : Option Int := none
deriving DecidableEq

/-- A decoded vectorization directive: the JSON object written for one
loop, either the disable object or a width object. -/
inductive Directive where
  | disable : Directive
  | width : Int → Directive
deriving DecidableEq

/-- The directive map written to loop_actions.json: a Python dict from
loop_id to Directive, modelled as an insertion-ordered association list. -/
abbrev DirectiveMap := List (String × Directive)

/-- Python dict assignment d[k] = v on an insertion-ordered dict:
overwrite in place when the key is present, append otherwise. -/
def dictInsert (m : DirectiveMap) (k : String) (v : Directive) : DirectiveMap :=
  if m.any (fun p => p.1 = k) then
    m.map (fun p => if p.1 = k then (k, v) else p)
  else
    m ++ [(k, v)]

/-- The state of the feature input file loop_features.json as seen by
open plus json.load at construction time. -/
inductive FeatureInput where
  | missing : FeatureInput
  | malformed : FeatureInput
  | records : List LoopFeature → FeatureInput
deriving DecidableEq

/-- The Python exceptions the embedded code can raise. -/
inductive PyError where
  | calledProcessError : List String → PyError
  | fileNotFoundError : String → PyError
  | jsonDecodeError : PyError
  | indexError : PyError
  | valueError : PyError
deriving DecidableEq

/-- The exception class of a raised error, forgetting its payload. -/
inductive ErrKind where
  | calledProcessError : ErrKind
  | fileNotFoundError : ErrKind
  | jsonDecodeError : ErrKind
  | indexError : ErrKind
  | valueError : ErrKind
deriving DecidableEq

/-- Exception class of a PyError value. -/
def PyError.kind : PyError → ErrKind
  | .calledProcessError _ => .calledProcessError
  | .fileNotFoundError _ => .fileNotFoundError
  | .jsonDecodeError => .jsonDecodeError
  | .indexError => .indexError
  | .valueError => .valueError

/-- Exception class of the error of a failed computation, none on success. -/
def errKindOf {α : Type} : Except PyError α → Option ErrKind
  | .error e => some e.kind
  | .ok _ => none

/-- Whether an Except value is a success. -/
def isOkB {α : Type} : Except PyError α → Bool
  | .ok _ => true
  | .error _ => false

/-- The filesystem and process effects visible to the claims: the feature
input file, the directive file loop_actions.json (none when absent), and
the ordered log of every external command invoked so far. -/
structure World where
  loop_features : FeatureInput
  loop_actions : Option DirectiveMap
  calls : List (List String)
deriving DecidableEq

/-- Oracle for one pass of run_binary: exit status of each external stage
and the wall-clock time of the measured binary when it runs. -/
structure ToolchainOutcome where
  applyOk : Bool
  vectorizeOk : Bool
  compileOk : Bool
  runExit : Int
  elapsed : Rat
deriving DecidableEq

/-- Stage 1 command of run_binary: the directive-applying opt pass. -/
def cmd_pass (ir_path : String) : List String :=
  ["opt", "-load-pass-plugin=./LoopRLOpt.so", "-passes=loop-rl-opt",
   ir_path, "-S", "-o", "tmp_opt.ll"]

/-- Stage 2 command of run_binary: the loop-vectorize opt pass. -/
def cmd_vec : List String :=
  ["opt", "-loop-vectorize", "tmp_opt.ll", "-S", "-o", "tmp_vec.ll"]

/-- Stage 3 command of run_binary: native compilation with clang. -/
def cmd_clang (binary_path : String) : List String :=
  ["clang", "tmp_vec.ll", "-O3", "-o", binary_path]

/-- Stage 4 command of run_binary: executing the measured binary. -/
def cmd_run (binary_path : String) : List String :=
  ["./" ++ binary_path]

/-- open("loop_features.json") followed by json.load: a missing file
raises FileNotFoundError, unparseable content raises JSONDecodeError. -/
def json_load_features : FeatureInput → Except PyError (List LoopFeature)
  | .missing => .error (.fileNotFoundError "loop_features.json")
  | .malformed => .error .jsonDecodeError
  | .records rs => .ok rs

/-- The environment object: the fields of LoopVectorizeEnv that survive
construction.  current_loop_idx starts at 0, is only ever reset to 0 or
incremented, so a natural number is a faithful model. -/
structure LoopVectorizeEnv where
  ir_path : String
  binary_path : String
  single_loop_mode : Bool
  loops : List LoopFeature
  n_loops : Nat
  obs_dim : Nat
  baseline_time : Rat
  current_loop_idx : Nat
deriving DecidableEq

/-- LoopVectorizeEnv.run_binary: invoke the four external stages in
order, each blocking on the previous, raising
subprocess.CalledProcessError carrying the failed command on any non-zero
exit (the stage-1 failure is caught, printed and re-raised unchanged, so
the same error propagates).  On success the wall-clock time of stage 4 is
returned.  Every invocation is appended to the call log. -/
def LoopVectorizeEnv.run_binary (ir_path binary_path : String) (w : World)
    (o : ToolchainOutcome) : Except PyError Rat × World :=
  let w1 : World := { w with calls := w.calls ++ [cmd_pass ir_path] }
  if o.applyOk = false then
    (.error (.calledProcessError (cmd_pass ir_path)), w1)
  else
    let w2 : World := { w1 with calls := w1.calls ++ [cmd_vec] }
    if o.vectorizeOk = false then
      (.error (.calledProcessError cmd_vec), w2)
    else
      let w3 : World := { w2 with calls := w2.calls ++ [cmd_clang binary_path] }
      if o.compileOk = false then
        (.error (.calledProcessError (cmd_clang binary_path)), w3)
      else
        let w4 : World := { w3 with calls := w3.calls ++ [cmd_run binary_path] }
        if o.runExit ≠ 0 then
          (.error (.calledProcessError (cmd_run binary_path)), w4)
        else
          (.ok o.elapsed, w4)

/-- LoopVectorizeEnv.action_to_metadata: decode one discrete action into
a directive, defaulting to disable outside 0..3. -/
def LoopVectorizeEnv.action_to_metadata (action : Int) : Directive :=
  if action = 0 then .disable
  else if action = 1 then .width 2
  else if action = 2 then .width 4
  else if action = 3 then .width 8
  else .disable

/-- LoopVectorizeEnv.__init__: load loop_features.json, record the mode
and sizes, then run one full baseline pass of run_binary; any raised
error propagates out of construction.  The observation-space and
action-space objects carry no information the claims need and are
omitted. -/
def LoopVectorizeEnv.init (ir_path binary_path : String)
    (single_loop_mode : Bool) (w : World) (o : ToolchainOutcome) :
    Except PyError LoopVectorizeEnv × World :=
  match json_load_features w.loop_features with
  | .error e => (.error e, w)
  | .ok loops =>
    match LoopVectorizeEnv.run_binary ir_path binary_path w o with
    | (.error e, w1) => (.error e, w1)
    | (.ok t, w1) =>
      (.ok { ir_path := ir_path, binary_path := binary_path,
             single_loop_mode := single_loop_mode, loops := loops,
             n_loops := loops.length, obs_dim := 6,
             baseline_time := t, current_loop_idx := 0 }, w1)

/-- LoopVectorizeEnv._feature_to_obs: the 6-entry observation vector of
one record, every count defaulting to 0 and trip_count_est defaulting to
the -1 sentinel, each value cast to a float. -/
def LoopVectorizeEnv.feature_to_obs (loop : LoopFeature) : List Rat :=
  [((loop.num_blocks.getD 0 : Int) : Rat),
   ((loop.num_loads.getD 0 : Int) : Rat),
   ((loop.num_stores.getD 0 : Int) : Rat),
   ((loop.num_arith.getD 0 : Int) : Rat),
   ((loop.num_calls.getD 0 : Int) : Rat),
   ((loop.trip_count_est.getD (-1) : Int) : Rat)]

/-- LoopVectorizeEnv.reset: set the cursor to 0, then return the first
record observation (single-loop mode, IndexError on an empty record
list) or the concatenation over all records (whole-program mode, where
np.concatenate of an empty list raises ValueError).  The cursor write
happens before the indexing, so the returned environment has cursor 0
even when reset raises. -/
def LoopVectorizeEnv.reset (env : LoopVectorizeEnv) :
    Except PyError (List Rat) × LoopVectorizeEnv :=
  let env1 : LoopVectorizeEnv := { env with current_loop_idx := 0 }
  if env1.single_loop_mode then
    match env1.loops[env1.current_loop_idx]? with
    | none => (.error .indexError, env1)
    | some loop => (.ok (LoopVectorizeEnv.feature_to_obs loop), env1)
  else
    if env1.loops.isEmpty then
      (.error .valueError, env1)
    else
      (.ok ((env1.loops.map LoopVectorizeEnv.feature_to_obs).flatten), env1)

/-- The value returned by a successful step: observation, reward, done
flag and the runtime entry of the info dict. -/
structure StepResult where
  obs : List Rat
  reward : Rat
  done : Bool
  runtime : Rat
deriving DecidableEq

/-- The single-loop branch of LoopVectorizeEnv.step: index the current
record (IndexError past the end, before any file is written or stage
run), build the one-entry directive map, overwrite loop_actions.json,
run the toolchain, and on success compute reward, advance the cursor and
return a zero observation with done true.  The `self.reset() if not
done` alternative on the observation line is dead code because done is
the literal True. -/
def LoopVectorizeEnv.step_single (env : LoopVectorizeEnv) (action : Int)
    (w : World) (o : ToolchainOutcome) :
    Except PyError StepResult × LoopVectorizeEnv × World :=
  let idx := env.current_loop_idx
  match env.loops[idx]? with
  | none => (.error .indexError, env, w)
  | some loop =>
    let act_map : DirectiveMap :=
      dictInsert [] loop.loop_id (LoopVectorizeEnv.action_to_metadata action)
    let w1 : World := { w with loop_actions := some act_map }
    match LoopVectorizeEnv.run_binary env.ir_path env.binary_path w1 o with
    | (.error e, w2) => (.error e, env, w2)
    | (.ok t, w2) =>
      let reward := env.baseline_time - t
      let env1 : LoopVectorizeEnv := { env with current_loop_idx := idx + 1 }
      (.ok { obs := List.replicate env.obs_dim 0, reward := reward,
             done := true, runtime := t }, env1, w2)

/-- The enumerate loop of the whole-program branch of step: walk the
action vector from index idx, look up each record by position
(IndexError when the vector is longer than the record list) and insert
its decoded directive into the accumulating dict. -/
def buildActMap (loops : List LoopFeature) (action : List Int) (idx : Nat)
    (acc : DirectiveMap) : Except PyError DirectiveMap :=
  match action with
  | [] => .ok acc
  | a :: rest =>
    match loops[idx]? with
    | none => .error .indexError
    | some loop =>
      buildActMap loops rest (idx + 1)
        (dictInsert acc loop.loop_id (LoopVectorizeEnv.action_to_metadata a))

/-- The whole-program branch of LoopVectorizeEnv.step: decode the whole
action vector into a directive map, overwrite loop_actions.json, run the
toolchain once, and on success return the reward against baseline with a
zero observation of full width and done true.  The cursor is untouched
in this branch. -/
def LoopVectorizeEnv.step_multi (env : LoopVectorizeEnv) (action : List Int)
    (w : World) (o : ToolchainOutcome) :
    Except PyError StepResult × LoopVectorizeEnv × World :=
  match buildActMap env.loops action 0 [] with
  | .error e => (.error e, env, w)
  | .ok act_map =>
    let w1 : World := { w with loop_actions := some act_map }
    match LoopVectorizeEnv.run_binary env.ir_path env.binary_path w1 o with
    | (.error e, w2) => (.error e, env, w2)
    | (.ok t, w2) =>
      (.ok { obs := List.replicate (env.n_loops * env.obs_dim) 0,
             reward := env.baseline_time - t,
             done := true, runtime := t }, env, w2)

/-!
Concrete values used by witnesses and counterexamples.
-/

/-- A demo feature record with every field present. -/
def demoLoop1 : LoopFeature :=
  { loop_id := "L1", num_blocks := some 3, num_loads := some 4,
    num_stores := some 2, num_arith := some 5, num_calls := some 0,
    trip_count_est := some 128 }

/-- A demo feature record with trip_count_est absent. -/
def demoLoop2 : LoopFeature :=
  { loop_id := "L2", num_blocks := some 1, num_loads := some 1,
    num_stores := some 1, num_arith := some 2, num_calls := some 1 }

/-- A demo feature record with most fields absent. -/
def demoLoop3 : LoopFeature :=
  { loop_id := "L3", num_blocks := some 2 }

/-- A fresh world with two feature records and no directive file. -/
def demoWorld : World :=
  { loop_features := .records [demoLoop1, demoLoop2],
    loop_actions := none, calls := [] }

/-- A fresh world whose feature file holds an empty collection. -/
def demoWorldEmpty : World :=
  { loop_features := .records [], loop_actions := none, calls := [] }

/-- A fresh world whose feature file is missing. -/
def demoWorldMissing : World :=
  { loop_features := .missing, loop_actions := none, calls := [] }

/-- A fresh world whose feature file does not parse. -/
def demoWorldMalformed : World :=
  { loop_features := .malformed, loop_actions := none, calls := [] }

/-- An oracle where every stage succeeds and the binary takes one second. -/
def demoOK : ToolchainOutcome :=
  { applyOk := true, vectorizeOk := true, compileOk := true,
    runExit := 0, elapsed := 1 }

/-- An oracle where every stage succeeds and the binary takes three seconds. -/
def demoSlow : ToolchainOutcome :=
  { applyOk := true, vectorizeOk := true, compileOk := true,
    runExit := 0, elapsed := 3 }

/-- An oracle where the measured binary exits non-zero. -/
def demoRunFail : ToolchainOutcome :=
  { applyOk := true, vectorizeOk := true, compileOk := true,
    runExit := 1, elapsed := 5 }

/-- An oracle where the first opt stage exits non-zero. -/
def demoApplyFail : ToolchainOutcome :=
  { applyOk := false, vectorizeOk := true, compileOk := true,
    runExit := 0, elapsed := 5 }

/-- The single-loop-mode environment a successful construction over
demoWorld with demoOK produces. -/
def demoEnv : LoopVectorizeEnv :=
  { ir_path := "benchmark.ll", binary_path := "./a.out",
    single_loop_mode := true, loops := [demoLoop1, demoLoop2],
    n_loops := 2, obs_dim := 6, baseline_time := 1, current_loop_idx := 0 }

/-- A whole-program-mode environment over three records. -/
def demoEnvMulti : LoopVectorizeEnv :=
  { ir_path := "benchmark.ll", binary_path := "./a.out",
    single_loop_mode := false, loops := [demoLoop1, demoLoop2, demoLoop3],
    n_loops := 3, obs_dim := 6, baseline_time := 2, current_loop_idx := 0 }

/-!
Helper lemmas about the embedded operations.
-/

/-- run_binary never touches the directive file. -/
theorem run_binary_loop_actions (ir bp : String) (w : World)
    (o : ToolchainOutcome) :
    (LoopVectorizeEnv.run_binary ir bp w o).2.loop_actions = w.loop_actions := by
  unfold LoopVectorizeEnv.run_binary
  split
  · rfl
  · split
    · rfl
    · split
      · rfl
      · split <;> rfl

/-- A successful run_binary pass means every stage succeeded, the result
is the measured time, and exactly the four stage commands were invoked
once each, in order. -/
theorem run_binary_ok_inv (ir bp : String) (w : World) (o : ToolchainOutcome)
    (t : Rat) (w2 : World)
    (h : LoopVectorizeEnv.run_binary ir bp w o = (.ok t, w2)) :
    o.applyOk = true ∧ o.vectorizeOk = true ∧ o.compileOk = true ∧
    o.runExit = 0 ∧ t = o.elapsed ∧
    w2 = { w with
           calls := w.calls ++ [cmd_pass ir, cmd_vec, cmd_clang bp, cmd_run bp] } := by
  unfold LoopVectorizeEnv.run_binary at h
  split at h
  · simp_all
  · split at h
    · simp_all
    · split at h
      · simp_all
      · split at h
        · simp_all
        · rename_i h1 h2 h3 h4
          simp only [Prod.mk.injEq, Except.ok.injEq] at h
          refine ⟨by simpa using h1, by simpa using h2, by simpa using h3,
                  by simpa using h4, h.1.symm, ?_⟩
          cases h.2
          simp [List.append_assoc]

/-- When every stage succeeds, run_binary returns the measured time and
appends exactly the four stage commands. -/
theorem run_binary_eq_ok (ir bp : String) (w : World) (o : ToolchainOutcome)
    (h1 : o.applyOk = true) (h2 : o.vectorizeOk = true)
    (h3 : o.compileOk = true) (h4 : o.runExit = 0) :
    LoopVectorizeEnv.run_binary ir bp w o =
      (.ok o.elapsed,
       { w with
         calls := w.calls ++ [cmd_pass ir, cmd_vec, cmd_clang bp, cmd_run bp] }) := by
  unfold LoopVectorizeEnv.run_binary
  simp [h1, h2, h3, h4, List.append_assoc]

/-- Successful construction means the features loaded, every baseline
stage succeeded, and the returned environment carries the measured
baseline time, the loaded records, their count, and a zero cursor. -/
theorem init_ok_inv (ir bp : String) (m : Bool) (w : World)
    (o : ToolchainOutcome) (env : LoopVectorizeEnv) (w1 : World)
    (h : LoopVectorizeEnv.init ir bp m w o = (.ok env, w1)) :
    ∃ loops, json_load_features w.loop_features = .ok loops ∧
      o.applyOk = true ∧ o.vectorizeOk = true ∧ o.compileOk = true ∧
      o.runExit = 0 ∧
      env = { ir_path := ir, binary_path := bp, single_loop_mode := m,
              loops := loops, n_loops := loops.length, obs_dim := 6,
              baseline_time := o.elapsed, current_loop_idx := 0 } ∧
      w1 = { w with
             calls := w.calls ++ [cmd_pass ir, cmd_vec, cmd_clang bp, cmd_run bp] } := by
  unfold LoopVectorizeEnv.init at h
  split at h
  · simp_all
  · rename_i loops hload
    split at h
    · simp_all
    · rename_i t w2 hrb
      obtain ⟨ha, hv, hc, hr, ht, hw⟩ := run_binary_ok_inv ir bp w o t w2 hrb
      simp only [Prod.mk.injEq, Except.ok.injEq] at h
      exact ⟨loops, hload, ha, hv, hc, hr, by simp [← h.1, ht], by simp [← h.2, hw]⟩

/-- reset always returns the environment with the cursor set to 0,
whether or not the observation lookup succeeds. -/
theorem reset_env_eq (env : LoopVectorizeEnv) :
    (LoopVectorizeEnv.reset env).2 = { env with current_loop_idx := 0 } := by
  unfold LoopVectorizeEnv.reset
  simp only []
  split
  · split <;> rfl
  · split <;> rfl

/-- A successful single-loop step means the cursor indexed a record,
every stage succeeded, the result carries reward baseline minus elapsed
with done true, the cursor advanced by one, and the directive file was
overwritten with the one-entry map for that record before the four stage
commands ran. -/
theorem step_single_ok_inv (env : LoopVectorizeEnv) (a : Int) (w : World)
    (o : ToolchainOutcome) (res : StepResult) (env1 : LoopVectorizeEnv)
    (w1 : World)
    (h : LoopVectorizeEnv.step_single env a w o = (.ok res, env1, w1)) :
    ∃ loop, env.loops[env.current_loop_idx]? = some loop ∧
      o.applyOk = true ∧ o.vectorizeOk = true ∧ o.compileOk = true ∧
      o.runExit = 0 ∧
      res = { obs := List.replicate env.obs_dim 0,
              reward := env.baseline_time - o.elapsed,
              done := true, runtime := o.elapsed } ∧
      env1 = { env with current_loop_idx := env.current_loop_idx + 1 } ∧
      w1 = { w with
             loop_actions := some (dictInsert [] loop.loop_id
               (LoopVectorizeEnv.action_to_metadata a)),
             calls := w.calls ++ [cmd_pass env.ir_path, cmd_vec,
               cmd_clang env.binary_path, cmd_run env.binary_path] } := by
  unfold LoopVectorizeEnv.step_single at h
  simp only [] at h
  split at h
  · simp_all
  · rename_i loop hget
    split at h
    · simp_all
    · rename_i t w2 hrb
      obtain ⟨ha, hv, hc, hr, ht, hw⟩ :=
        run_binary_ok_inv env.ir_path env.binary_path _ o t w2 hrb
      simp only [Prod.mk.injEq, Except.ok.injEq] at h
      exact ⟨loop, hget, ha, hv, hc, hr, by simp [← h.1, ht], h.2.1.symm,
             by simp [← h.2.2, hw]⟩

/-- A successful whole-program step means the whole action vector
decoded, every stage succeeded, the result carries reward baseline minus
elapsed with done true, the environment is unchanged, and the directive
file was overwritten with the decoded map before the four stage commands
ran. -/
theorem step_multi_ok_inv (env : LoopVectorizeEnv) (v : List Int) (w : World)
    (o : ToolchainOutcome) (res : StepResult) (env1 : LoopVectorizeEnv)
    (w1 : World)
    (h : LoopVectorizeEnv.step_multi env v w o = (.ok res, env1, w1)) :
    ∃ m, buildActMap env.loops v 0 [] = .ok m ∧
      o.applyOk = true ∧ o.vectorizeOk = true ∧ o.compileOk = true ∧
      o.runExit = 0 ∧
      res = { obs := List.replicate (env.n_loops * env.obs_dim) 0,
              reward := env.baseline_time - o.elapsed,
              done := true, runtime := o.elapsed } ∧
      env1 = env ∧
      w1 = { w with
             loop_actions := some m,
             calls := w.calls ++ [cmd_pass env.ir_path, cmd_vec,
               cmd_clang env.binary_path, cmd_run env.binary_path] } := by
  unfold LoopVectorizeEnv.step_multi at h
  simp only [] at h
  split at h
  · simp_all
  · rename_i m hbuild
    split at h
    · simp_all
    · rename_i t w2 hrb
      obtain ⟨ha, hv, hc, hr, ht, hw⟩ :=
        run_binary_ok_inv env.ir_path env.binary_path _ o t w2 hrb
      simp only [Prod.mk.injEq, Except.ok.injEq] at h
      exact ⟨m, hbuild, ha, hv, hc, hr, by simp [← h.1, ht], h.2.1.symm,
             by simp [← h.2.2, hw]⟩

/-- A single-loop step either leaves the environment untouched (failure
of indexing or of the toolchain) or advances the cursor by exactly one
from a position strictly inside the record list. -/
theorem step_single_env_cases (env : LoopVectorizeEnv) (a : Int) (w : World)
    (o : ToolchainOutcome) :
    (LoopVectorizeEnv.step_single env a w o).2.1 = env ∨
    ((LoopVectorizeEnv.step_single env a w o).2.1 =
        { env with current_loop_idx := env.current_loop_idx + 1 } ∧
      env.current_loop_idx < env.loops.length) := by
  unfold LoopVectorizeEnv.step_single
  simp only []
  split
  · exact Or.inl rfl
  · rename_i loop hget
    split
    · exact Or.inl rfl
    · exact Or.inr ⟨rfl, by
        have := List.getElem?_eq_some.mp hget
        exact this.1⟩

/-- Inserting a key not yet present into the dict appends the binding. -/
theorem dictInsert_of_not_mem (m : DirectiveMap) (k : String) (v : Directive)
    (h : m.any (fun p => p.1 = k) = false) :
    dictInsert m k v = m ++ [(k, v)] := by
  unfold dictInsert
  simp only [h]
  simp

/-- In a duplicate-free list, the element at position i does not occur
among the first i elements. -/
theorem getElem_not_mem_take {α : Type _} (l : List α) (i : Nat)
    (h : i < l.length) (hnd : l.Nodup) : l[i] ∉ l.take i := by
  have hdis := List.disjoint_take_drop hnd (le_refl i)
  intro hmem
  exact hdis hmem (by
    rw [List.drop_eq_getElem_cons h]
    exact List.mem_cons_self _ _)

/-- The enumerate loop of the whole-program step succeeds on an action
vector matching the record count when the loop ids are duplicate-free,
and the keys of the resulting map are exactly the loop ids in record
order. -/
theorem buildActMap_keys (loops : List LoopFeature)
    (hnodup : (loops.map LoopFeature.loop_id).Nodup) :
    ∀ (action : List Int) (idx : Nat) (acc : DirectiveMap),
      idx + action.length = loops.length →
      acc.map Prod.fst = (loops.take idx).map LoopFeature.loop_id →
      ∃ m, buildActMap loops action idx acc = .ok m ∧
        m.map Prod.fst = loops.map LoopFeature.loop_id := by
  intro action
  induction action with
  | nil =>
    intro idx acc hlen hkeys
    refine ⟨acc, rfl, ?_⟩
    have : idx = loops.length := by simpa using hlen
    rw [hkeys, this, List.take_length]
  | cons a rest ih =>
    intro idx acc hlen hkeys
    have hidx : idx < loops.length := by
      simp only [List.length_cons] at hlen
      omega
    have hget : loops[idx]? = some loops[idx] := List.getElem?_eq_getElem hidx
    have hfresh : acc.any (fun p => p.1 = loops[idx].loop_id) = false := by
      rw [List.any_eq_false]
      intro p hp
      simp only [decide_eq_true_eq]
      intro hpk
      have hmem : p.1 ∈ acc.map Prod.fst := List.mem_map_of_mem _ hp
      rw [hkeys, List.map_take] at hmem
      have hidx2 : idx < (loops.map LoopFeature.loop_id).length := by
        simpa using hidx
      have := getElem_not_mem_take (loops.map LoopFeature.loop_id) idx hidx2
        (by simpa using hnodup)
      rw [List.getElem_map] at this
      exact this (hpk ▸ hmem)
    have hstep : buildActMap loops (a :: rest) idx acc =
        buildActMap loops rest (idx + 1)
          (dictInsert acc loops[idx].loop_id
            (LoopVectorizeEnv.action_to_metadata a)) := by
      simp only [buildActMap, hget]
    rw [hstep, dictInsert_of_not_mem _ _ _ hfresh]
    refine ih (idx + 1) _ (by simp only [List.length_cons] at hlen; omega) ?_
    rw [List.map_append, hkeys]
    have htake : loops.take (idx + 1) = loops.take idx ++ [loops[idx]] := by
      rw [List.take_succ, hget]
      rfl
    rw [htake, List.map_append]
    rfl

/-- The single-loop-mode environments reachable through the public
protocol: a successful construction in single-loop mode, then any
sequence of reset and step calls. -/
inductive ReachableSingle : LoopVectorizeEnv → Prop where
  | construction (ir bp : String) (w : World) (o : ToolchainOutcome)
      (env : LoopVectorizeEnv) (w1 : World) :
      LoopVectorizeEnv.init ir bp true w o = (.ok env, w1) →
      ReachableSingle env
  | reset_call (env : LoopVectorizeEnv) : ReachableSingle env →
      ReachableSingle (LoopVectorizeEnv.reset env).2
  | step_call (env : LoopVectorizeEnv) (a : Int) (w : World)
      (o : ToolchainOutcome) : ReachableSingle env →
      ReachableSingle (LoopVectorizeEnv.step_single env a w o).2.1

/-- Every reachable single-loop environment keeps n_loops equal to the
record count and its cursor at most n_loops. -/
theorem reachableSingle_invariant (env : LoopVectorizeEnv)
    (h : ReachableSingle env) :
    env.n_loops = env.loops.length ∧ env.current_loop_idx ≤ env.n_loops := by
  induction h with
  | construction ir bp w o env w1 hinit =>
    obtain ⟨loops, _, _, _, _, _, henv, _⟩ :=
      init_ok_inv ir bp true w o env w1 hinit
    rw [henv]
    exact ⟨rfl, Nat.zero_le _⟩
  | reset_call env hr ih =>
    rw [reset_env_eq]
    exact ⟨ih.1, Nat.zero_le _⟩
  | step_call env a w o hr ih =>
    rcases step_single_env_cases env a w o with hcase | ⟨hcase, hlt⟩
    · rw [hcase]; exact ih
    · rw [hcase]
      refine ⟨ih.1, ?_⟩
      have h1 := ih.1
      simp only [] at h1 ⊢
      omega

/-!
Claim theorems.
-/

/-- C1: at construction the environment computes baseline_time exactly
once, by a single full four-stage toolchain pass whose measured time
becomes baseline_time; construction never writes the directive file, so
when no directive file is present initially the calibration run sees no
directive for any loop (the unmodified program); and if the calibration
run fails, construction returns that failure and no environment is
produced. -/
theorem C1_baseline_calibration :
    (∀ (ir bp : String) (m : Bool) (w : World) (o : ToolchainOutcome)
        (env : LoopVectorizeEnv) (w1 : World),
        w.loop_actions = none →
        LoopVectorizeEnv.init ir bp m w o = (.ok env, w1) →
        env.baseline_time = o.elapsed ∧
        w1.loop_actions = none ∧
        w1.calls = w.calls ++ [cmd_pass ir, cmd_vec, cmd_clang bp, cmd_run bp]) ∧
    (∀ (ir bp : String) (m : Bool) (w : World) (o : ToolchainOutcome)
        (loops : List LoopFeature) (e : PyError),
        json_load_features w.loop_features = .ok loops →
        (LoopVectorizeEnv.run_binary ir bp w o).1 = .error e →
        (LoopVectorizeEnv.init ir bp m w o).1 = .error e) := by
  constructor
  · intro ir bp m w o env w1 hnone hinit
    obtain ⟨loops, _, _, _, _, _, henv, hw1⟩ :=
      init_ok_inv ir bp m w o env w1 hinit
    rw [henv, hw1]
    exact ⟨rfl, hnone, rfl⟩
  · intro ir bp m w o loops e hload herr
    unfold LoopVectorizeEnv.init
    rw [hload]
    rcases hrb : LoopVectorizeEnv.run_binary ir bp w o with ⟨r, w2⟩
    rw [hrb] at herr
    simp only [] at herr
    subst herr
    simp

/-- Witness for C1: construction over the two demo records with a
one-second baseline run yields demoEnv; and with a failing apply stage,
construction fails with the same error. -/
theorem C1_baseline_calibration_witness :
    (demoEnv.baseline_time = demoOK.elapsed ∧
      ({ demoWorld with calls := [cmd_pass "benchmark.ll", cmd_vec,
          cmd_clang "./a.out", cmd_run "./a.out"] } : World).loop_actions = none ∧
      ({ demoWorld with calls := [cmd_pass "benchmark.ll", cmd_vec,
          cmd_clang "./a.out", cmd_run "./a.out"] } : World).calls =
        demoWorld.calls ++ [cmd_pass "benchmark.ll", cmd_vec,
          cmd_clang "./a.out", cmd_run "./a.out"]) ∧
    (LoopVectorizeEnv.init "benchmark.ll" "./a.out" true demoWorld
        demoApplyFail).1 =
      .error (.calledProcessError (cmd_pass "benchmark.ll")) :=
  ⟨C1_baseline_calibration.1 "benchmark.ll" "./a.out" true demoWorld demoOK
     demoEnv _ (by decide) (by decide),
   C1_baseline_calibration.2 "benchmark.ll" "./a.out" true demoWorld
     demoApplyFail [demoLoop1, demoLoop2]
     (.calledProcessError (cmd_pass "benchmark.ll")) (by decide) (by decide)⟩

/-- C2: action decoding is a total function matching the table exactly:
0 yields the disable directive, 1, 2, 3 yield widths 2, 4, 8, and every
integer outside 0..3 yields the disable directive rather than an
error. -/
theorem C2_action_decode_table :
    LoopVectorizeEnv.action_to_metadata 0 = Directive.disable ∧
    LoopVectorizeEnv.action_to_metadata 1 = Directive.width 2 ∧
    LoopVectorizeEnv.action_to_metadata 2 = Directive.width 4 ∧
    LoopVectorizeEnv.action_to_metadata 3 = Directive.width 8 ∧
    (∀ a : Int, a ≠ 0 → a ≠ 1 → a ≠ 2 → a ≠ 3 →
      LoopVectorizeEnv.action_to_metadata a = Directive.disable) := by
  refine ⟨by decide, by decide, by decide, by decide, ?_⟩
  intro a h0 h1 h2 h3
  simp [LoopVectorizeEnv.action_to_metadata, h0, h1, h2, h3]

/-- Witness for C2 at the out-of-range action 7. -/
theorem C2_action_decode_table_witness :
    LoopVectorizeEnv.action_to_metadata 7 = Directive.disable :=
  C2_action_decode_table.2.2.2.2 7 (by decide) (by decide) (by decide)
    (by decide)

/-- C3: in both modes a successful step returns reward equal to
baseline_time minus the measured elapsed time of that trial (the trial
time reported as info runtime), so the reward is strictly positive
exactly when the trial ran faster than baseline, strictly negative
exactly when slower, and exactly zero on a tie; there is no further
normalization. -/
theorem C3_reward_is_time_delta :
    (∀ (env : LoopVectorizeEnv) (a : Int) (w : World) (o : ToolchainOutcome)
        (res : StepResult) (env1 : LoopVectorizeEnv) (w1 : World),
        LoopVectorizeEnv.step_single env a w o = (.ok res, env1, w1) →
        res.runtime = o.elapsed ∧
        res.reward = env.baseline_time - res.runtime ∧
        (0 < res.reward ↔ res.runtime < env.baseline_time) ∧
        (res.reward < 0 ↔ env.baseline_time < res.runtime) ∧
        (res.reward = 0 ↔ res.runtime = env.baseline_time)) ∧
    (∀ (env : LoopVectorizeEnv) (v : List Int) (w : World)
        (o : ToolchainOutcome) (res : StepResult) (env1 : LoopVectorizeEnv)
        (w1 : World),
        LoopVectorizeEnv.step_multi env v w o = (.ok res, env1, w1) →
        res.runtime = o.elapsed ∧
        res.reward = env.baseline_time - res.runtime ∧
        (0 < res.reward ↔ res.runtime < env.baseline_time) ∧
        (res.reward < 0 ↔ env.baseline_time < res.runtime) ∧
        (res.reward = 0 ↔ res.runtime = env.baseline_time)) := by
  constructor
  · intro env a w o res env1 w1 h
    obtain ⟨loop, _, _, _, _, _, hres, _, _⟩ :=
      step_single_ok_inv env a w o res env1 w1 h
    subst hres
    refine ⟨rfl, rfl, sub_pos, sub_neg, ?_⟩
    rw [sub_eq_zero]
    exact eq_comm
  · intro env v w o res env1 w1 h
    obtain ⟨m, _, _, _, _, _, hres, _, _⟩ :=
      step_multi_ok_inv env v w o res env1 w1 h
    subst hres
    refine ⟨rfl, rfl, sub_pos, sub_neg, ?_⟩
    rw [sub_eq_zero]
    exact eq_comm

/-- The result of a successful single-loop step of demoEnv under action 1
with a three-second trial. -/
def demoStepRes : StepResult :=
  { obs := List.replicate 6 0, reward := -2, done := true, runtime := 3 }

/-- demoEnv after that step: cursor advanced to 1. -/
def demoStepEnv : LoopVectorizeEnv :=
  { demoEnv with current_loop_idx := 1 }

/-- The world after that step: directive file holding the width-2
directive for L1, four stage commands logged. -/
def demoStepWorld : World :=
  { demoWorld with
    loop_actions := some [("L1", Directive.width 2)],
    calls := [cmd_pass "benchmark.ll", cmd_vec, cmd_clang "./a.out",
      cmd_run "./a.out"] }

/-- The result of a successful whole-program step of demoEnvMulti under
the action vector [1, 0, 3] with a three-second trial. -/
def demoMultiRes : StepResult :=
  { obs := List.replicate 18 0, reward := -1, done := true, runtime := 3 }

/-- The world after that whole-program step. -/
def demoMultiWorld : World :=
  { demoWorld with
    loop_actions := some [("L1", Directive.width 2), ("L2", Directive.disable),
      ("L3", Directive.width 8)],
    calls := [cmd_pass "benchmark.ll", cmd_vec, cmd_clang "./a.out",
      cmd_run "./a.out"] }

/-- The concrete single-loop step demoEnv takes under action 1 with a
three-second trial. -/
theorem demo_step_single_eq :
    LoopVectorizeEnv.step_single demoEnv 1 demoWorld demoSlow =
      (Except.ok demoStepRes, demoStepEnv, demoStepWorld) := by
  simp [LoopVectorizeEnv.step_single, LoopVectorizeEnv.run_binary,
    LoopVectorizeEnv.action_to_metadata, dictInsert, demoEnv, demoWorld,
    demoSlow, demoStepRes, demoStepEnv, demoStepWorld, demoLoop1, demoLoop2,
    cmd_pass, cmd_vec, cmd_clang, cmd_run]
  norm_num

/-- The concrete whole-program step demoEnvMulti takes under the action
vector [1, 0, 3] with a three-second trial. -/
theorem demo_step_multi_eq :
    LoopVectorizeEnv.step_multi demoEnvMulti [1, 0, 3] demoWorld demoSlow =
      (Except.ok demoMultiRes, demoEnvMulti, demoMultiWorld) := by
  simp [LoopVectorizeEnv.step_multi, LoopVectorizeEnv.run_binary,
    LoopVectorizeEnv.action_to_metadata, buildActMap, dictInsert, demoEnvMulti,
    demoWorld, demoSlow, demoMultiRes, demoMultiWorld, demoLoop1, demoLoop2,
    demoLoop3, cmd_pass, cmd_vec, cmd_clang, cmd_run]
  norm_num

/-- Witness for C3 at concrete slow trials in both modes. -/
theorem C3_reward_is_time_delta_witness :
    (demoStepRes.runtime = demoSlow.elapsed ∧
     demoStepRes.reward = demoEnv.baseline_time - demoStepRes.runtime ∧
     (0 < demoStepRes.reward ↔ demoStepRes.runtime < demoEnv.baseline_time) ∧
     (demoStepRes.reward < 0 ↔ demoEnv.baseline_time < demoStepRes.runtime) ∧
     (demoStepRes.reward = 0 ↔ demoStepRes.runtime = demoEnv.baseline_time)) ∧
    (demoMultiRes.runtime = demoSlow.elapsed ∧
     demoMultiRes.reward = demoEnvMulti.baseline_time - demoMultiRes.runtime ∧
     (0 < demoMultiRes.reward ↔
        demoMultiRes.runtime < demoEnvMulti.baseline_time) ∧
     (demoMultiRes.reward < 0 ↔
        demoEnvMulti.baseline_time < demoMultiRes.runtime) ∧
     (demoMultiRes.reward = 0 ↔
        demoMultiRes.runtime = demoEnvMulti.baseline_time)) :=
  ⟨C3_reward_is_time_delta.1 demoEnv 1 demoWorld demoSlow demoStepRes
     demoStepEnv demoStepWorld demo_step_single_eq,
   C3_reward_is_time_delta.2 demoEnvMulti [1, 0, 3] demoWorld demoSlow
     demoMultiRes demoEnvMulti demoMultiWorld demo_step_multi_eq⟩

/-- C4: every step call, in single-loop mode and in whole-program mode
alike, returns done equal to true whenever it returns at all, so the
environment never produces a multi-step trajectory. -/
theorem C4_step_always_done :
    (∀ (env : LoopVectorizeEnv) (a : Int) (w : World) (o : ToolchainOutcome)
        (res : StepResult) (env1 : LoopVectorizeEnv) (w1 : World),
        LoopVectorizeEnv.step_single env a w o = (.ok res, env1, w1) →
        res.done = true) ∧
    (∀ (env : LoopVectorizeEnv) (v : List Int) (w : World)
        (o : ToolchainOutcome) (res : StepResult) (env1 : LoopVectorizeEnv)
        (w1 : World),
        LoopVectorizeEnv.step_multi env v w o = (.ok res, env1, w1) →
        res.done = true) := by
  constructor
  · intro env a w o res env1 w1 h
    obtain ⟨loop, _, _, _, _, _, hres, _, _⟩ :=
      step_single_ok_inv env a w o res env1 w1 h
    rw [hres]
  · intro env v w o res env1 w1 h
    obtain ⟨m, _, _, _, _, _, hres, _, _⟩ :=
      step_multi_ok_inv env v w o res env1 w1 h
    rw [hres]

/-- Witness for C4 at one concrete step in each mode. -/
theorem C4_step_always_done_witness :
    demoStepRes.done = true ∧ demoMultiRes.done = true :=
  ⟨C4_step_always_done.1 demoEnv 1 demoWorld demoSlow demoStepRes demoStepEnv
     demoStepWorld demo_step_single_eq,
   C4_step_always_done.2 demoEnvMulti [1, 0, 3] demoWorld demoSlow
     demoMultiRes demoEnvMulti demoMultiWorld demo_step_multi_eq⟩

/-- Every record encodes to a vector of exactly six entries. -/
theorem feature_to_obs_length (loop : LoopFeature) :
    (LoopVectorizeEnv.feature_to_obs loop).length = 6 := rfl

/-- The concatenated encoding of a record list has length six times the
record count. -/
theorem flatten_obs_length (loops : List LoopFeature) :
    ((loops.map LoopVectorizeEnv.feature_to_obs).flatten).length =
      6 * loops.length := by
  induction loops with
  | nil => rfl
  | cons l ls ih =>
    simp only [List.map_cons, List.flatten_cons, List.length_append, ih,
      feature_to_obs_length, List.length_cons]
    omega

/-- C5: each record encodes to the six-field vector [num_blocks,
num_loads, num_stores, num_arith, num_calls, trip_count_est] cast to
floats, counts defaulting to 0, with a missing trip_count_est encoded as
exactly -1 and a present one passed through unclamped; a single-loop
reset returns the length-6 encoding of the record at the freshly zeroed
cursor, and a whole-program reset returns the length 6 * n_loops
concatenation of all record encodings in load order. -/
theorem C5_observation_encoding :
    (∀ loop : LoopFeature,
       LoopVectorizeEnv.feature_to_obs loop =
         [((loop.num_blocks.getD 0 : Int) : Rat),
          ((loop.num_loads.getD 0 : Int) : Rat),
          ((loop.num_stores.getD 0 : Int) : Rat),
          ((loop.num_arith.getD 0 : Int) : Rat),
          ((loop.num_calls.getD 0 : Int) : Rat),
          ((loop.trip_count_est.getD (-1) : Int) : Rat)] ∧
       (LoopVectorizeEnv.feature_to_obs loop).length = 6) ∧
    (∀ loop : LoopFeature, loop.trip_count_est = none →
       (LoopVectorizeEnv.feature_to_obs loop)[5]? = some (-1 : Rat)) ∧
    (∀ (loop : LoopFeature) (t : Int), loop.trip_count_est = some t →
       (LoopVectorizeEnv.feature_to_obs loop)[5]? = some ((t : Int) : Rat)) ∧
    (∀ (env : LoopVectorizeEnv) (loop : LoopFeature),
       env.single_loop_mode = true → env.loops[0]? = some loop →
       (LoopVectorizeEnv.reset env).1 =
         .ok (LoopVectorizeEnv.feature_to_obs loop) ∧
       (LoopVectorizeEnv.feature_to_obs loop).length = 6) ∧
    (∀ env : LoopVectorizeEnv,
       env.single_loop_mode = false → env.loops ≠ [] →
       (LoopVectorizeEnv.reset env).1 =
         .ok ((env.loops.map LoopVectorizeEnv.feature_to_obs).flatten) ∧
       ((env.loops.map LoopVectorizeEnv.feature_to_obs).flatten).length =
         6 * env.loops.length) := by
  refine ⟨fun loop => ⟨rfl, rfl⟩, ?_, ?_, ?_, ?_⟩
  · intro loop h
    simp [LoopVectorizeEnv.feature_to_obs, h]
  · intro loop t h
    simp [LoopVectorizeEnv.feature_to_obs, h]
  · intro env loop hmode hget
    unfold LoopVectorizeEnv.reset
    simp only []
    rw [if_pos (by simpa using hmode)]
    constructor
    · rw [show ({ env with current_loop_idx := 0 } :
            LoopVectorizeEnv).loops[({ env with current_loop_idx := 0 } :
            LoopVectorizeEnv).current_loop_idx]? = some loop from hget]
    · exact feature_to_obs_length loop
  · intro env hmode hne
    unfold LoopVectorizeEnv.reset
    simp only []
    rw [if_neg (by simp [hmode])]
    constructor
    · rw [if_neg (by simpa using hne)]
    · exact flatten_obs_length env.loops

/-- Witness for C5 at concrete records and environments in both modes. -/
theorem C5_observation_encoding_witness :
    (LoopVectorizeEnv.feature_to_obs demoLoop1 =
       [((demoLoop1.num_blocks.getD 0 : Int) : Rat),
        ((demoLoop1.num_loads.getD 0 : Int) : Rat),
        ((demoLoop1.num_stores.getD 0 : Int) : Rat),
        ((demoLoop1.num_arith.getD 0 : Int) : Rat),
        ((demoLoop1.num_calls.getD 0 : Int) : Rat),
        ((demoLoop1.trip_count_est.getD (-1) : Int) : Rat)] ∧
     (LoopVectorizeEnv.feature_to_obs demoLoop1).length = 6) ∧
    (LoopVectorizeEnv.feature_to_obs demoLoop2)[5]? = some (-1 : Rat) ∧
    (LoopVectorizeEnv.feature_to_obs demoLoop1)[5]? =
      some ((128 : Int) : Rat) ∧
    ((LoopVectorizeEnv.reset demoEnv).1 =
       .ok (LoopVectorizeEnv.feature_to_obs demoLoop1) ∧
     (LoopVectorizeEnv.feature_to_obs demoLoop1).length = 6) ∧
    ((LoopVectorizeEnv.reset demoEnvMulti).1 =
       .ok ((demoEnvMulti.loops.map LoopVectorizeEnv.feature_to_obs).flatten) ∧
     ((demoEnvMulti.loops.map LoopVectorizeEnv.feature_to_obs).flatten).length =
       6 * demoEnvMulti.loops.length) :=
  ⟨C5_observation_encoding.1 demoLoop1,
   C5_observation_encoding.2.1 demoLoop2 (by decide),
   C5_observation_encoding.2.2.1 demoLoop1 128 (by decide),
   C5_observation_encoding.2.2.2.1 demoEnv demoLoop1 (by decide) (by decide),
   C5_observation_encoding.2.2.2.2 demoEnvMulti (by decide) (by decide)⟩

/-- C6: in single-loop mode every reset sets the cursor to 0, every
successful step increments it by exactly 1, no step ever decreases it,
and on every environment reachable through the public protocol the
cursor never exceeds n_loops. -/
theorem C6_cursor_monotone :
    (∀ env : LoopVectorizeEnv,
       ((LoopVectorizeEnv.reset env).2).current_loop_idx = 0) ∧
    (∀ (env : LoopVectorizeEnv) (a : Int) (w : World) (o : ToolchainOutcome)
        (res : StepResult) (env1 : LoopVectorizeEnv) (w1 : World),
        LoopVectorizeEnv.step_single env a w o = (.ok res, env1, w1) →
        env1.current_loop_idx = env.current_loop_idx + 1) ∧
    (∀ (env : LoopVectorizeEnv) (a : Int) (w : World) (o : ToolchainOutcome),
        env.current_loop_idx ≤
          (LoopVectorizeEnv.step_single env a w o).2.1.current_loop_idx) ∧
    (∀ env : LoopVectorizeEnv, ReachableSingle env →
        env.current_loop_idx ≤ env.n_loops) := by
  refine ⟨?_, ?_, ?_, ?_⟩
  · intro env
    rw [reset_env_eq]
  · intro env a w o res env1 w1 h
    obtain ⟨loop, _, _, _, _, _, _, henv, _⟩ :=
      step_single_ok_inv env a w o res env1 w1 h
    rw [henv]
  · intro env a w o
    rcases step_single_env_cases env a w o with hcase | ⟨hcase, _⟩
    · rw [hcase]
    · rw [hcase]
      exact Nat.le_succ _
  · intro env h
    exact (reachableSingle_invariant env h).2

/-- Witness for C6: the concrete reset, the concrete successful step, the
step-monotonicity instance, and the bound on the constructed demoEnv. -/
theorem C6_cursor_monotone_witness :
    ((LoopVectorizeEnv.reset demoEnv).2).current_loop_idx = 0 ∧
    demoStepEnv.current_loop_idx = demoEnv.current_loop_idx + 1 ∧
    demoEnv.current_loop_idx ≤
      (LoopVectorizeEnv.step_single demoEnv 1 demoWorld
        demoSlow).2.1.current_loop_idx ∧
    demoEnv.current_loop_idx ≤ demoEnv.n_loops :=
  ⟨C6_cursor_monotone.1 demoEnv,
   C6_cursor_monotone.2.1 demoEnv 1 demoWorld demoSlow demoStepRes demoStepEnv
     demoStepWorld demo_step_single_eq,
   C6_cursor_monotone.2.2.1 demoEnv 1 demoWorld demoSlow,
   C6_cursor_monotone.2.2.2 demoEnv
     (ReachableSingle.construction "benchmark.ll" "./a.out" demoWorld demoOK
       demoEnv { demoWorld with calls := [cmd_pass "benchmark.ll", cmd_vec,
         cmd_clang "./a.out", cmd_run "./a.out"] } (by decide))⟩

/-- C7 counterexample: an empty feature collection is not rejected at
construction — with a succeeding toolchain, building the environment
over an empty record list succeeds instead of failing, refuting the
claim that an empty collection fails construction. -/
theorem C7_counterexample_empty_accepted :
    isOkB (LoopVectorizeEnv.init "benchmark.ll" "./a.out" true
      demoWorldEmpty demoOK).1 = true := by decide

/-- C7 amended: a missing feature file fails construction with
FileNotFoundError and an unparseable one with JSONDecodeError (built-in
exceptions, not a dedicated ConfigurationError), but an empty feature
collection is not rejected: construction over an empty record list
succeeds whenever the calibration run succeeds. -/
theorem C7_construction_failure_modes :
    (∀ (ir bp : String) (m : Bool) (w : World) (o : ToolchainOutcome),
       w.loop_features = .missing →
       (LoopVectorizeEnv.init ir bp m w o).1 =
         .error (.fileNotFoundError "loop_features.json")) ∧
    (∀ (ir bp : String) (m : Bool) (w : World) (o : ToolchainOutcome),
       w.loop_features = .malformed →
       (LoopVectorizeEnv.init ir bp m w o).1 = .error .jsonDecodeError) ∧
    (∀ (ir bp : String) (m : Bool) (w : World) (o : ToolchainOutcome),
       w.loop_features = .records [] →
       o.applyOk = true → o.vectorizeOk = true → o.compileOk = true →
       o.runExit = 0 →
       isOkB (LoopVectorizeEnv.init ir bp m w o).1 = true) := by
  refine ⟨?_, ?_, ?_⟩
  · intro ir bp m w o h
    unfold LoopVectorizeEnv.init
    rw [h]
    rfl
  · intro ir bp m w o h
    unfold LoopVectorizeEnv.init
    rw [h]
    rfl
  · intro ir bp m w o h ha hv hc hr
    unfold LoopVectorizeEnv.init
    rw [h, run_binary_eq_ok ir bp w o ha hv hc hr]
    rfl

/-- Witness for C7 amended, at a missing file, a malformed file and an
empty record list. -/
theorem C7_construction_failure_modes_witness :
    (LoopVectorizeEnv.init "benchmark.ll" "./a.out" true demoWorldMissing
        demoOK).1 = .error (.fileNotFoundError "loop_features.json") ∧
    (LoopVectorizeEnv.init "benchmark.ll" "./a.out" true demoWorldMalformed
        demoOK).1 = .error .jsonDecodeError ∧
    isOkB (LoopVectorizeEnv.init "benchmark.ll" "./a.out" false demoWorldEmpty
        demoSlow).1 = true :=
  ⟨C7_construction_failure_modes.1 "benchmark.ll" "./a.out" true
     demoWorldMissing demoOK (by decide),
   C7_construction_failure_modes.2.1 "benchmark.ll" "./a.out" true
     demoWorldMalformed demoOK (by decide),
   C7_construction_failure_modes.2.2 "benchmark.ll" "./a.out" false
     demoWorldEmpty demoSlow (by decide) (by decide) (by decide) (by decide)
     (by decide)⟩

/-- C8 counterexample: a non-zero exit of the measured binary during the
timing stage raises the same exception kind, CalledProcessError, as a
failing apply stage — there is no distinct ExecutionError kind, refuting
the claimed distinctness. -/
theorem C8_counterexample_same_error_kind :
    errKindOf (LoopVectorizeEnv.run_binary "benchmark.ll" "./a.out"
        demoWorld demoRunFail).1 = some ErrKind.calledProcessError ∧
    errKindOf (LoopVectorizeEnv.run_binary "benchmark.ll" "./a.out"
        demoWorld demoApplyFail).1 = some ErrKind.calledProcessError ∧
    errKindOf (LoopVectorizeEnv.run_binary "benchmark.ll" "./a.out"
        demoWorld demoRunFail).1 =
      errKindOf (LoopVectorizeEnv.run_binary "benchmark.ll" "./a.out"
        demoWorld demoApplyFail).1 := by decide

/-- An oracle where the loop-vectorize stage exits non-zero. -/
def demoVecFail : ToolchainOutcome :=
  { applyOk := true, vectorizeOk := false, compileOk := true,
    runExit := 0, elapsed := 5 }

/-- An oracle where the clang stage exits non-zero. -/
def demoCompFail : ToolchainOutcome :=
  { applyOk := true, vectorizeOk := true, compileOk := false,
    runExit := 0, elapsed := 5 }

/-- If any of the four stages fails, run_binary raises. -/
theorem run_binary_fail (ir bp : String) (w : World) (o : ToolchainOutcome)
    (h : o.applyOk = false ∨ o.vectorizeOk = false ∨ o.compileOk = false ∨
      o.runExit ≠ 0) :
    ∃ e, (LoopVectorizeEnv.run_binary ir bp w o).1 = .error e := by
  cases ha : o.applyOk <;> cases hv : o.vectorizeOk <;>
    cases hc : o.compileOk <;>
      rcases Decidable.em (o.runExit = 0) with hr | hr <;>
        simp [LoopVectorizeEnv.run_binary, ha, hv, hc, hr] <;>
          simp_all

/-- C8 amended: all four stages of run_binary raise the same exception
kind, subprocess.CalledProcessError, on a non-zero exit; there is no
distinct ExecutionError kind for the measured binary.  What
distinguishes the failures is the failed command carried in the error:
each stage failure carries exactly its own command line, the four
command lines are pairwise distinct, the pipeline stops at the first
failure with no retry (the call log ends at the failed command), and a
step whose toolchain run fails returns that error with no reward
computed and the cursor unchanged. -/
theorem C8_stage_failure_semantics :
    (∀ (ir bp : String) (w : World) (o : ToolchainOutcome),
       o.applyOk = false →
       LoopVectorizeEnv.run_binary ir bp w o =
         (.error (.calledProcessError (cmd_pass ir)),
          { w with calls := w.calls ++ [cmd_pass ir] })) ∧
    (∀ (ir bp : String) (w : World) (o : ToolchainOutcome),
       o.applyOk = true → o.vectorizeOk = false →
       LoopVectorizeEnv.run_binary ir bp w o =
         (.error (.calledProcessError cmd_vec),
          { w with calls := w.calls ++ [cmd_pass ir, cmd_vec] })) ∧
    (∀ (ir bp : String) (w : World) (o : ToolchainOutcome),
       o.applyOk = true → o.vectorizeOk = true → o.compileOk = false →
       LoopVectorizeEnv.run_binary ir bp w o =
         (.error (.calledProcessError (cmd_clang bp)),
          { w with calls := w.calls ++ [cmd_pass ir, cmd_vec, cmd_clang bp] })) ∧
    (∀ (ir bp : String) (w : World) (o : ToolchainOutcome),
       o.applyOk = true → o.vectorizeOk = true → o.compileOk = true →
       o.runExit ≠ 0 →
       LoopVectorizeEnv.run_binary ir bp w o =
         (.error (.calledProcessError (cmd_run bp)),
          { w with calls := w.calls ++ [cmd_pass ir, cmd_vec, cmd_clang bp,
              cmd_run bp] })) ∧
    (∀ (ir bp : String) (w : World) (o : ToolchainOutcome) (e : PyError)
        (w2 : World),
       LoopVectorizeEnv.run_binary ir bp w o = (.error e, w2) →
       e.kind = ErrKind.calledProcessError) ∧
    (∀ (env : LoopVectorizeEnv) (a : Int) (w : World) (o : ToolchainOutcome),
       (o.applyOk = false ∨ o.vectorizeOk = false ∨ o.compileOk = false ∨
         o.runExit ≠ 0) →
       isOkB (LoopVectorizeEnv.step_single env a w o).1 = false ∧
       (LoopVectorizeEnv.step_single env a w o).2.1 = env) ∧
    (∀ ir bp : String,
       cmd_pass ir ≠ cmd_vec ∧ cmd_pass ir ≠ cmd_clang bp ∧
       cmd_pass ir ≠ cmd_run bp ∧ cmd_vec ≠ cmd_clang bp ∧
       cmd_vec ≠ cmd_run bp ∧ cmd_clang bp ≠ cmd_run bp) := by
  refine ⟨?_, ?_, ?_, ?_, ?_, ?_, ?_⟩
  · intro ir bp w o h
    simp [LoopVectorizeEnv.run_binary, h]
  · intro ir bp w o h1 h2
    simp [LoopVectorizeEnv.run_binary, h1, h2]
  · intro ir bp w o h1 h2 h3
    simp [LoopVectorizeEnv.run_binary, h1, h2, h3]
  · intro ir bp w o h1 h2 h3 h4
    simp [LoopVectorizeEnv.run_binary, h1, h2, h3, h4]
  · intro ir bp w o e w2 h
    unfold LoopVectorizeEnv.run_binary at h
    split at h
    · simp only [Prod.mk.injEq, Except.error.injEq] at h
      rw [← h.1]
      rfl
    · split at h
      · simp only [Prod.mk.injEq, Except.error.injEq] at h
        rw [← h.1]
        rfl
      · split at h
        · simp only [Prod.mk.injEq, Except.error.injEq] at h
          rw [← h.1]
          rfl
        · split at h
          · simp only [Prod.mk.injEq, Except.error.injEq] at h
            rw [← h.1]
            rfl
          · simp at h
  · intro env a w o hfail
    cases hget : env.loops[env.current_loop_idx]? with
    | none =>
      unfold LoopVectorizeEnv.step_single
      simp only []
      rw [hget]
      exact ⟨rfl, rfl⟩
    | some loop =>
      cases ha : o.applyOk <;> cases hv : o.vectorizeOk <;>
        cases hc : o.compileOk <;>
          rcases Decidable.em (o.runExit = 0) with hr | hr <;>
            simp [LoopVectorizeEnv.step_single, hget,
              LoopVectorizeEnv.run_binary, ha, hv, hc, hr, isOkB] <;>
              simp_all
  · intro ir bp
    refine ⟨?_, ?_, ?_, ?_, ?_, ?_⟩ <;>
      simp [cmd_pass, cmd_vec, cmd_clang, cmd_run]

/-- Witness for C8 amended at concrete failures of each stage. -/
theorem C8_stage_failure_semantics_witness :
    (LoopVectorizeEnv.run_binary "benchmark.ll" "./a.out" demoWorld
        demoApplyFail =
      (.error (.calledProcessError (cmd_pass "benchmark.ll")),
       { demoWorld with
         calls := demoWorld.calls ++ [cmd_pass "benchmark.ll"] })) ∧
    (LoopVectorizeEnv.run_binary "benchmark.ll" "./a.out" demoWorld
        demoVecFail =
      (.error (.calledProcessError cmd_vec),
       { demoWorld with
         calls := demoWorld.calls ++ [cmd_pass "benchmark.ll", cmd_vec] })) ∧
    (LoopVectorizeEnv.run_binary "benchmark.ll" "./a.out" demoWorld
        demoCompFail =
      (.error (.calledProcessError (cmd_clang "./a.out")),
       { demoWorld with
         calls := demoWorld.calls ++ [cmd_pass "benchmark.ll", cmd_vec,
           cmd_clang "./a.out"] })) ∧
    (LoopVectorizeEnv.run_binary "benchmark.ll" "./a.out" demoWorld
        demoRunFail =
      (.error (.calledProcessError (cmd_run "./a.out")),
       { demoWorld with
         calls := demoWorld.calls ++ [cmd_pass "benchmark.ll", cmd_vec,
           cmd_clang "./a.out", cmd_run "./a.out"] })) ∧
    (PyError.calledProcessError (cmd_run "./a.out")).kind =
      ErrKind.calledProcessError ∧
    (isOkB (LoopVectorizeEnv.step_single demoEnv 1 demoWorld
        demoRunFail).1 = false ∧
     (LoopVectorizeEnv.step_single demoEnv 1 demoWorld
        demoRunFail).2.1 = demoEnv) ∧
    (cmd_pass "benchmark.ll" ≠ cmd_vec ∧
     cmd_pass "benchmark.ll" ≠ cmd_clang "./a.out" ∧
     cmd_pass "benchmark.ll" ≠ cmd_run "./a.out" ∧
     cmd_vec ≠ cmd_clang "./a.out" ∧
     cmd_vec ≠ cmd_run "./a.out" ∧
     cmd_clang "./a.out" ≠ cmd_run "./a.out") :=
  ⟨C8_stage_failure_semantics.1 "benchmark.ll" "./a.out" demoWorld
     demoApplyFail (by decide),
   C8_stage_failure_semantics.2.1 "benchmark.ll" "./a.out" demoWorld
     demoVecFail (by decide) (by decide),
   C8_stage_failure_semantics.2.2.1 "benchmark.ll" "./a.out" demoWorld
     demoCompFail (by decide) (by decide) (by decide),
   C8_stage_failure_semantics.2.2.2.1 "benchmark.ll" "./a.out" demoWorld
     demoRunFail (by decide) (by decide) (by decide) (by decide),
   C8_stage_failure_semantics.2.2.2.2.1 "benchmark.ll" "./a.out" demoWorld
     demoRunFail (.calledProcessError (cmd_run "./a.out"))
     { demoWorld with
       calls := demoWorld.calls ++ [cmd_pass "benchmark.ll", cmd_vec,
         cmd_clang "./a.out", cmd_run "./a.out"] } (by decide),
   C8_stage_failure_semantics.2.2.2.2.2.1 demoEnv 1 demoWorld demoRunFail
     (by right; right; right; decide),
   C8_stage_failure_semantics.2.2.2.2.2.2 "benchmark.ll" "./a.out"⟩

/-- C9: in whole-program mode, with one action per record and
duplicate-free loop ids, the directive map written to loop_actions.json
during the step has exactly one entry per record, keyed by each
loop_id in load order — no omissions, no duplicates — whatever the
toolchain outcome. -/
theorem C9_directive_map_complete (env : LoopVectorizeEnv) (v : List Int)
    (w : World) (o : ToolchainOutcome)
    (hlen : v.length = env.loops.length)
    (hnodup : (env.loops.map LoopFeature.loop_id).Nodup) :
    ((LoopVectorizeEnv.step_multi env v w o).2.2.loop_actions.map
        (fun m => m.map Prod.fst)) =
      some (env.loops.map LoopFeature.loop_id) ∧
    ((LoopVectorizeEnv.step_multi env v w o).2.2.loop_actions.map
        List.length) = some env.loops.length := by
  obtain ⟨m, hbuild, hkeys⟩ := buildActMap_keys env.loops hnodup v 0 []
    (by simpa using hlen) (by simp)
  have hla : (LoopVectorizeEnv.step_multi env v w o).2.2.loop_actions =
      some m := by
    unfold LoopVectorizeEnv.step_multi
    rw [hbuild]
    simp only []
    rcases hrb : LoopVectorizeEnv.run_binary env.ir_path env.binary_path
      { w with loop_actions := some m } o with ⟨r, w2⟩
    have hkeep := run_binary_loop_actions env.ir_path env.binary_path
      { w with loop_actions := some m } o
    rw [hrb] at hkeep
    cases r with
    | error e => simpa using hkeep
    | ok t => simpa using hkeep
  rw [hla]
  refine ⟨by simp [hkeys], ?_⟩
  have hml : m.length = env.loops.length := by
    have := congrArg List.length hkeys
    simpa using this
  simp [hml]

/-- Witness for C9 at the three-record whole-program step. -/
theorem C9_directive_map_complete_witness :
    ((LoopVectorizeEnv.step_multi demoEnvMulti [1, 0, 3] demoWorld
        demoSlow).2.2.loop_actions.map (fun m => m.map Prod.fst)) =
      some (demoEnvMulti.loops.map LoopFeature.loop_id) ∧
    ((LoopVectorizeEnv.step_multi demoEnvMulti [1, 0, 3] demoWorld
        demoSlow).2.2.loop_actions.map List.length) =
      some demoEnvMulti.loops.length :=
  C9_directive_map_complete demoEnvMulti [1, 0, 3] demoWorld demoSlow
    (by decide) (by decide)

/-- C10: a single-loop step taken with the cursor at or past the end of
the record list — in particular any step on an empty record collection,
or the step after the n_loops-th step without an intervening reset —
raises IndexError at the record lookup: the step returns that error, no
directive file write happens, no toolchain stage is invoked, and the
cursor, the directive file and the call log are all left exactly as they
were. -/
theorem C10_step_out_of_range (env : LoopVectorizeEnv) (a : Int) (w : World)
    (o : ToolchainOutcome) (h : env.loops.length ≤ env.current_loop_idx) :
    LoopVectorizeEnv.step_single env a w o = (.error .indexError, env, w) := by
  unfold LoopVectorizeEnv.step_single
  simp only []
  rw [List.getElem?_eq_none h]

/-- Witness for C10: the third step of the two-record demoEnv without an
intervening reset, and any step on an empty record collection. -/
theorem C10_step_out_of_range_witness :
    LoopVectorizeEnv.step_single { demoEnv with current_loop_idx := 2 } 1
        demoWorld demoOK =
      (.error .indexError, { demoEnv with current_loop_idx := 2 },
       demoWorld) ∧
    LoopVectorizeEnv.step_single { demoEnv with loops := [], n_loops := 0 } 0
        demoWorldEmpty demoOK =
      (.error .indexError, { demoEnv with loops := [], n_loops := 0 },
       demoWorldEmpty) :=
  ⟨C10_step_out_of_range { demoEnv with current_loop_idx := 2 } 1 demoWorld
     demoOK (by decide),
   C10_step_out_of_range { demoEnv with loops := [], n_loops := 0 } 0
     demoWorldEmpty demoOK (by decide)⟩
